import Mathlib

set_option maxRecDepth 100000

/-!
Shallow embedding of the uC-MicroLab I2C HAL (`firmware/i2c/i2c-hal.c`) and of
the DS3231 real-time-clock driver (`firmware/drv/rtc/ds3231.c`).

Machine integers are modelled as `Nat` with an explicit `% 2 ^ w` wherever the
C code truncates (a cast to `uint8_t`, a store into a `uint8_t` register or
struct field, `size_t` wrap-around).  The target MCU is the ATmega328P (stated
in the repository headers and examples), on which `int` and `size_t` are both
16 bits wide.  Device registers and caller-visible buffers are modelled as
explicit values; each driver routine is embedded as the function from the
bytes it reads to the bytes it writes.
-/

namespace UCMicroLab

/-- The BCD encoder macro `TO_BCD` of `ds3231.c` line 225:
`(uint8_t)((((val) / 10U) << 4U) | ((val) % 10U))`.  The cast to `uint8_t`
is the trailing `% 256`. -/
def TO_BCD (val : Nat) : Nat := (((val / 10) <<< 4) ||| (val % 10)) % 256

/-- The BCD decoder macro `TO_BIN` of `ds3231.c` line 226:
`(uint8_t)((((val) >> 4U) * 10U) + ((val) & 0x0FU))`. -/
def TO_BIN (val : Nat) : Nat := (((val >>> 4) * 10) + (val &&& 0x0F)) % 256

/-- The `DS3231_Datetime_t` struct of `ds3231.h`; the C fields are `uint8_t`
except `year`, which is `uint16_t`. -/
structure DS3231_Datetime_t where
  sec   : Nat
  min   : Nat
  hour  : Nat
  day   : Nat
  date  : Nat
  month : Nat
  year  : Nat
deriving DecidableEq, Repr

/-- The documented field ranges of a Clock Datetime Record (`ds3231.h` public
types: sec 0-59, min 0-59, hour 0-23, day 1-7, date 1-31, month 1-12,
year 2000-2199). -/
def DS3231_Datetime_t.Valid (t : DS3231_Datetime_t) : Prop :=
  t.sec ≤ 59 ∧ t.min ≤ 59 ∧ t.hour ≤ 23 ∧
  1 ≤ t.day ∧ t.day ≤ 7 ∧ 1 ≤ t.date ∧ t.date ≤ 31 ∧
  1 ≤ t.month ∧ t.month ≤ 12 ∧ 2000 ≤ t.year ∧ t.year ≤ 2199

instance (t : DS3231_Datetime_t) : Decidable t.Valid := by
  unfold DS3231_Datetime_t.Valid; infer_instance

/-- Register-map constant from `ds3231.h`. -/
def DS3231_REG_SECONDS : Nat := 0x00

/-- Register-map constant from `ds3231.h`. -/
def DS3231_REG_ALM1_SEC : Nat := 0x07

/-- Control-register bit constant from `ds3231.h` (bit 0). -/
def DS3231_CTRL_A1IE : Nat := 0x01

/-- Control-register bit constant from `ds3231.h` (bit 1). -/
def DS3231_CTRL_A2IE : Nat := 0x02

/-- `DS3231_SetTime` (`ds3231.c` lines 241-257).  The C routine first mutates
the caller's record (`time->month |= 0x80U` when `year >= 2100`), then fills
an 8-byte buffer (register pointer followed by seven data bytes) and
transmits it.  The result pairs the record as left behind in the caller's
storage with the transmitted buffer.  Note the year byte mirrors the source
exactly: `TO_BCD((uint8_t)time->year % 100U)` casts the year to `uint8_t`
before reducing mod 100. -/
def DS3231_SetTime (time : DS3231_Datetime_t) : DS3231_Datetime_t × List Nat :=
  let time := if 2100 ≤ time.year then
    { time with month := (time.month ||| 0x80) % 256 } else time
  (time,
    [DS3231_REG_SECONDS,
     TO_BCD time.sec, TO_BCD time.min, TO_BCD time.hour,
     TO_BCD time.day, TO_BCD time.date, TO_BCD time.month,
     TO_BCD (time.year % 256 % 100)])

/-- `DS3231_GetTime` (`ds3231.c` lines 259-276), as a function of the seven
register bytes received starting at the seconds register.  `day` is stored
raw; the century decision tests bit 7 of the month byte; `year` is a
`uint16_t` store. -/
def DS3231_GetTime (reg_vals : List Nat) : DS3231_Datetime_t :=
  { sec   := TO_BIN (reg_vals.getD 0 0)
  , min   := TO_BIN (reg_vals.getD 1 0)
  , hour  := TO_BIN (reg_vals.getD 2 0)
  , day   := reg_vals.getD 3 0 % 256
  , date  := TO_BIN (reg_vals.getD 4 0)
  , month := TO_BIN (reg_vals.getD 5 0)
  , year  := (TO_BIN (reg_vals.getD 6 0) +
      (if reg_vals.getD 5 0 &&& 0x80 ≠ 0 then 2100 else 2000)) % 65536 }

/-- `DS3231_SetTime` then `DS3231_GetTime`, with the device registers storing
exactly the seven data bytes written (the transmitted buffer minus its
leading register-pointer byte). -/
def DS3231_RoundTrip (t : DS3231_Datetime_t) : DS3231_Datetime_t :=
  DS3231_GetTime ((DS3231_SetTime t).2.drop 1)

/-- `DS3231_DisableAlarm1` (`ds3231.c` lines 322-330): the byte written back
to the control register as a function of the byte read.  The source computes
`reg_ctrl &= DS3231_CTRL_A1IE` (no complement). -/
def DS3231_DisableAlarm1_write (reg_ctrl : Nat) : Nat :=
  reg_ctrl &&& DS3231_CTRL_A1IE

/-- `DS3231_EnableAlarm1` (`ds3231.c` lines 332-340): the byte written back
to the control register as a function of the byte read
(`reg_ctrl |= DS3231_CTRL_A1IE`, a `uint8_t` store). -/
def DS3231_EnableAlarm1_write (reg_ctrl : Nat) : Nat :=
  (reg_ctrl ||| DS3231_CTRL_A1IE) % 256

/-- Alarm-1 match-mode constant from `ds3231.h`. -/
def DS3231_ALM1_PER_SEC : Nat := 0x0F

/-- Alarm-1 match-mode constant from `ds3231.h`. -/
def DS3231_ALM1_MTC_SECS : Nat := 0x0E

/-- Alarm-1 match-mode constant from `ds3231.h`. -/
def DS3231_ALM1_MTC_MIN_SEC : Nat := 0x0C

/-- Alarm-1 match-mode constant from `ds3231.h`. -/
def DS3231_ALM1_MTC_HR_MIN_SEC : Nat := 0x08

/-- Alarm-1 match-mode constant from `ds3231.h`. -/
def DS3231_ALM1_MTC_DT_HR_MIN_SEC : Nat := 0x00

/-- Alarm-1 match-mode constant from `ds3231.h`. -/
def DS3231_ALM1_MTC_DY_DT_HR_MIN_SEC : Nat := 0x10

/-- `DS3231_SetAlarm1` (`ds3231.c` lines 278-320): the five-byte buffer
(register pointer `DS3231_REG_ALM1_SEC` followed by the four alarm-1 data
bytes) transmitted for a given record and mode.  The C routine first fills
the buffer with the BCD-encoded fields, then the `switch` on `mode`
overwrites or masks entries; each `|=` is a `uint8_t` store. -/
def DS3231_SetAlarm1_buff (time : DS3231_Datetime_t) (mode : Nat) : List Nat :=
  let b1 := TO_BCD time.sec
  let b2 := TO_BCD time.min
  let b3 := TO_BCD time.hour
  let b4 := TO_BCD time.day
  if mode = DS3231_ALM1_PER_SEC then
    [DS3231_REG_ALM1_SEC, 0x80, 0x80, 0x80, 0x80]
  else if mode = DS3231_ALM1_MTC_SECS then
    [DS3231_REG_ALM1_SEC, b1, (b2 ||| 0x80) % 256, (b3 ||| 0x80) % 256,
      (b4 ||| 0x80) % 256]
  else if mode = DS3231_ALM1_MTC_MIN_SEC then
    [DS3231_REG_ALM1_SEC, b1, b2, (b3 ||| 0x80) % 256, (b4 ||| 0x80) % 256]
  else if mode = DS3231_ALM1_MTC_HR_MIN_SEC then
    [DS3231_REG_ALM1_SEC, b1, b2, b3, (b4 ||| 0x80) % 256]
  else if mode = DS3231_ALM1_MTC_DT_HR_MIN_SEC then
    [DS3231_REG_ALM1_SEC, b1, b2, b3, b4]
  else if mode = DS3231_ALM1_MTC_DY_DT_HR_MIN_SEC then
    [DS3231_REG_ALM1_SEC, b1, b2, b3, (b4 ||| 0x40) % 256]
  else
    [DS3231_REG_ALM1_SEC, b1, b2, b3, b4]

/-- TWI control-register bit position on the ATmega328P (`avr/io.h`), as
used by `i2c-hal.c`. -/
def TWINT : Nat := 7

/-- TWI acknowledge-enable bit position on the ATmega328P. -/
def TWEA : Nat := 6

/-- TWI enable bit position on the ATmega328P. -/
def TWEN : Nat := 2

/-- The `size_t` modulus on the ATmega328P (the target MCU named throughout
the repository): `size_t` is 16 bits wide. -/
def sizeT_mod : Nat := 65536

/-- The iteration count of the receive loops
`for(int i = 0; i < len - 1; ++i)` in `i2c-hal.c`: the bound `len - 1` is
computed in `size_t` arithmetic, so it wraps to `0xFFFF` when `len = 0`. -/
def recv_loop_bound (len : Nat) : Nat := (len + (sizeT_mod - 1)) % sizeT_mod

/-- `HAL_I2C_ControllerReceive` (`i2c-hal.c` lines 209-227): the sequence of
TWCR control-register writes that clock in the data bytes — one
`TWEN|TWINT|TWEA` write per loop iteration, then the final `TWEN|TWINT`
write, whose clear TWEA bit makes the last byte non-acknowledged. -/
def HAL_I2C_ControllerReceive_twcr (len : Nat) : List Nat :=
  List.replicate (recv_loop_bound len)
      ((1 <<< TWEN) ||| (1 <<< TWINT) ||| (1 <<< TWEA)) ++
    [(1 <<< TWEN) ||| (1 <<< TWINT)]

/-- `HAL_I2C_ControllerRead` (`i2c-hal.c` lines 192-207): the single TWCR
write that clocks in the one data byte (`TWEN|TWINT`, TWEA clear). -/
def HAL_I2C_ControllerRead_twcr : Nat := (1 <<< TWEN) ||| (1 <<< TWINT)

/-- `HAL_I2C_ControllerReceive` (`i2c-hal.c` lines 209-227): the buffer
indices stored to — `buf[i]` on each loop iteration, then `buf[len - 1]`
with `len - 1` computed in `size_t` arithmetic. -/
def HAL_I2C_ControllerReceive_writtenIdx (len : Nat) : List Nat :=
  List.range (recv_loop_bound len) ++ [recv_loop_bound len]

/-- `HAL_I2C_PeripheralReceive` (`i2c-hal.c` lines 262-275): the buffer
indices stored to; the loop and the final store have the same shape as the
controller-side receive. -/
def HAL_I2C_PeripheralReceive_writtenIdx (len : Nat) : List Nat :=
  List.range (recv_loop_bound len) ++ [recv_loop_bound len]

/-- `HAL_I2C_EndComm` (`i2c-hal.c` lines 277-280): `TWCR &= ~(1 << TWEN)`,
with the complement truncated to the 8-bit register width. -/
def HAL_I2C_EndComm (twcr : Nat) : Nat := twcr &&& (0xFF ^^^ (1 <<< TWEN))

/-- `DS3231_GetTemp` (`ds3231.c` lines 399-412), sign-extension step: the C
code holds the 10-bit value in an `int16_t` and runs
`if (raw_temp & 0x0200) raw_temp |= (int16_t)0xFC00;`.  ORing `0xFC00` into
a 16-bit two's-complement value below `0x0400` sets the sign bit, so the
resulting integer is `(u ||| 0xFC00) - 0x10000`. -/
def DS3231_raw_signext (u : Nat) : Int :=
  if u &&& 0x0200 ≠ 0 then ((u ||| 0xFC00 : Nat) : Int) - 65536 else (u : Int)

/-- `DS3231_GetTemp` (`ds3231.c` lines 399-412): the raw reading
`(int16_t)(((uint16_t)temp_bytes[0] << 2U) | (temp_bytes[1] >> 6U))`
followed by the sign-extension step. -/
def DS3231_GetTemp_raw (msb lsb : Nat) : Int :=
  DS3231_raw_signext ((msb <<< 2) ||| (lsb >>> 6))

/-- The `DS3231_GetTemp` result `(float)raw_temp * 0.25f`, modelled in `ℚ`:
every reachable value is an integer of magnitude at most 1023 scaled by
`2 ^ -2`, exactly representable in binary32, and the single multiplication
is exact there, so the rational model coincides with the float
computation. -/
def DS3231_GetTemp (msb lsb : Nat) : ℚ :=
  (DS3231_GetTemp_raw msb lsb : ℚ) * (1/4)

/-- Helper: every `TO_BCD` output is a byte. -/
theorem TO_BCD_lt_256 (v : Nat) : TO_BCD v < 256 :=
  Nat.mod_lt _ (by decide)

/-- Helper: BCD encodings of in-range time fields (anything below 80)
leave bit 7 clear. -/
theorem TO_BCD_lt_128 : ∀ v < 80, TO_BCD v < 128 := by
  decide

/-- Helper: masking a byte with `0x80` sets bit 7. -/
theorem testBit7_or128 (b : Nat) (hb : b < 256) :
    Nat.testBit ((b ||| 0x80) % 256) 7 = true := by
  have h : b ||| 0x80 < 256 := Nat.or_lt_two_pow (n := 8) hb (by decide)
  have h128 : Nat.testBit 0x80 7 = true := by decide
  rw [Nat.mod_eq_of_lt h, Nat.testBit_or, h128, Bool.or_true]

/-- Helper: the alarm-1 buffer in the per-second mode, unfolded. -/
theorem DS3231_SetAlarm1_buff_per_sec (t : DS3231_Datetime_t) :
    DS3231_SetAlarm1_buff t DS3231_ALM1_PER_SEC =
      [DS3231_REG_ALM1_SEC, 0x80, 0x80, 0x80, 0x80] := rfl

/-- Helper: the alarm-1 buffer in the match-seconds-only mode, unfolded. -/
theorem DS3231_SetAlarm1_buff_mtc_secs (t : DS3231_Datetime_t) :
    DS3231_SetAlarm1_buff t DS3231_ALM1_MTC_SECS =
      [DS3231_REG_ALM1_SEC, TO_BCD t.sec, (TO_BCD t.min ||| 0x80) % 256,
        (TO_BCD t.hour ||| 0x80) % 256, (TO_BCD t.day ||| 0x80) % 256] := rfl

end UCMicroLab

namespace UCMicroLab

/-- Claim C5: for every value 0-99, encoding to BCD and decoding back is the
identity, and the decoded result stays inside 0-99. -/
theorem TO_BCD_TO_BIN_roundtrip :
    ∀ val < 100, TO_BIN (TO_BCD val) = val ∧ TO_BIN (TO_BCD val) ≤ 99 := by
  decide

/-- Witness for C5 at the concrete value 59. -/
theorem TO_BCD_TO_BIN_roundtrip_witness :
    TO_BIN (TO_BCD 59) = 59 ∧ TO_BIN (TO_BCD 59) ≤ 99 :=
  TO_BCD_TO_BIN_roundtrip 59 (by decide)

/-- Claim C2, evaluated at the failing input: reading control byte `0xFF`,
`DS3231_DisableAlarm1` writes back `0x01` — it keeps only the A1IE bit and
clears the other seven bits (the A2IE bit among them), instead of clearing
A1IE and preserving the rest as the claim and the driver's own header
documentation state. -/
theorem DS3231_DisableAlarm1_write_bug :
    DS3231_DisableAlarm1_write 0xFF = 0x01 ∧
    Nat.testBit (DS3231_DisableAlarm1_write 0xFF) 0 = true ∧
    Nat.testBit (DS3231_DisableAlarm1_write 0xFF) 1 = false ∧
    DS3231_DisableAlarm1_write 0xFF ≠ 0xFE := by
  decide

/-- Claim C3: for every control byte, `DS3231_EnableAlarm1` writes back the
byte with bit 0 (A1IE) set and every other bit — bit 1 (A2IE) included —
exactly as read. -/
theorem DS3231_EnableAlarm1_write_frame :
    ∀ reg_ctrl < 256,
      Nat.testBit (DS3231_EnableAlarm1_write reg_ctrl) 0 = true ∧
      ∀ i < 8, i ≠ 0 →
        Nat.testBit (DS3231_EnableAlarm1_write reg_ctrl) i =
          Nat.testBit reg_ctrl i := by
  decide

/-- Witness for C3 at control byte `0xAA` and bit 1 (A2IE). -/
theorem DS3231_EnableAlarm1_write_frame_witness :
    Nat.testBit (DS3231_EnableAlarm1_write 0xAA) 0 = true ∧
    Nat.testBit (DS3231_EnableAlarm1_write 0xAA) 1 = Nat.testBit 0xAA 1 :=
  ⟨(DS3231_EnableAlarm1_write_frame 0xAA (by decide)).1,
   (DS3231_EnableAlarm1_write_frame 0xAA (by decide)).2 1 (by decide) (by decide)⟩

/-- Claim C1, evaluated at a failing input: the valid record
`{sec 0, min 0, hour 0, day 1, date 1, month 1, year 2000}` does not
round-trip — `DS3231_SetTime` computes the year byte as
`TO_BCD((uint8_t)year % 100)`, so 2000 is truncated to 208 and reduced to 8,
and `DS3231_GetTime` returns year 2008. -/
theorem DS3231_RoundTrip_year_truncation_bug :
    ({ sec := 0, min := 0, hour := 0, day := 1, date := 1, month := 1,
       year := 2000 } : DS3231_Datetime_t).Valid ∧
    DS3231_RoundTrip
        { sec := 0, min := 0, hour := 0, day := 1, date := 1, month := 1,
          year := 2000 } =
      { sec := 0, min := 0, hour := 0, day := 1, date := 1, month := 1,
        year := 2008 } := by
  decide

/-- Counterexample to claim C8: `DS3231_SetTime` on the valid record
`{sec 0, min 0, hour 0, day 1, date 1, month 1, year 2100}` leaves the
caller's month field at 129 (`month |= 0x80`), not 1. -/
theorem DS3231_SetTime_mutates_month :
    (DS3231_SetTime
        { sec := 0, min := 0, hour := 0, day := 1, date := 1, month := 1,
          year := 2100 }).1.month = 129 ∧ (129 : Nat) ≠ 1 := by
  decide

/-- Claim C8 as amended: `DS3231_SetTime` leaves every field of the caller's
record unchanged except `month`, which gets bit 7 ORed in exactly when the
year is at least 2100; in particular for years 2000-2099 the whole record is
unchanged. -/
theorem DS3231_SetTime_record_effect (t : DS3231_Datetime_t) :
    (DS3231_SetTime t).1 =
      { t with month :=
          if 2100 ≤ t.year then (t.month ||| 0x80) % 256 else t.month } := by
  dsimp only [DS3231_SetTime]
  split <;> simp_all

/-- Claim C4: in the per-second mode all four alarm-1 data bytes have the
don't-care bit 7 set; in the match-seconds-only mode the seconds byte has
bit 7 clear while the minutes, hours and day/date bytes have bit 7 set. -/
theorem DS3231_SetAlarm1_mode_masks (t : DS3231_Datetime_t) (hv : t.Valid) :
    (∀ i, 1 ≤ i → i ≤ 4 →
      Nat.testBit ((DS3231_SetAlarm1_buff t DS3231_ALM1_PER_SEC).getD i 0) 7
        = true) ∧
    Nat.testBit ((DS3231_SetAlarm1_buff t DS3231_ALM1_MTC_SECS).getD 1 0) 7
      = false ∧
    (∀ i, 2 ≤ i → i ≤ 4 →
      Nat.testBit ((DS3231_SetAlarm1_buff t DS3231_ALM1_MTC_SECS).getD i 0) 7
        = true) := by
  obtain ⟨hsec, -⟩ := hv
  refine ⟨?_, ?_, ?_⟩
  · intro i h1 h4
    rw [DS3231_SetAlarm1_buff_per_sec]
    interval_cases i <;> decide
  · have hlt : TO_BCD t.sec < 128 := TO_BCD_lt_128 t.sec (by omega)
    rw [DS3231_SetAlarm1_buff_mtc_secs]
    exact Nat.testBit_eq_false_of_lt hlt
  · intro i h2 h4
    rw [DS3231_SetAlarm1_buff_mtc_secs]
    interval_cases i
    · exact testBit7_or128 _ (TO_BCD_lt_256 _)
    · exact testBit7_or128 _ (TO_BCD_lt_256 _)
    · exact testBit7_or128 _ (TO_BCD_lt_256 _)

/-- Witness for C4 at the record `{sec 7, min 30, hour 14, day 4, date 26,
month 2, year 2026}`. -/
theorem DS3231_SetAlarm1_mode_masks_witness :
    Nat.testBit
      ((DS3231_SetAlarm1_buff
          { sec := 7, min := 30, hour := 14, day := 4, date := 26,
            month := 2, year := 2026 } DS3231_ALM1_MTC_SECS).getD 1 0) 7
      = false :=
  (DS3231_SetAlarm1_mode_masks
      { sec := 7, min := 30, hour := 14, day := 4, date := 26,
        month := 2, year := 2026 } (by decide)).2.1

/-- Claim C6: in `HAL_I2C_ControllerReceive` every data byte before the last
is clocked in with TWEA set (acknowledge) and the last byte with TWEA clear
(non-acknowledge); `HAL_I2C_ControllerRead` clocks its single byte with
TWEA clear. -/
theorem HAL_I2C_receive_ack_policy :
    ∀ len, 1 ≤ len → len < sizeT_mod →
      (HAL_I2C_ControllerReceive_twcr len).length = len ∧
      (∀ i, i + 1 < len →
        Nat.testBit ((HAL_I2C_ControllerReceive_twcr len).getD i 0) TWEA
          = true) ∧
      Nat.testBit ((HAL_I2C_ControllerReceive_twcr len).getD (len - 1) 0) TWEA
        = false ∧
      Nat.testBit HAL_I2C_ControllerRead_twcr TWEA = false := by
  intro len h1 hlt
  have hb : recv_loop_bound len = len - 1 := by
    unfold recv_loop_bound sizeT_mod
    unfold sizeT_mod at hlt
    omega
  refine ⟨?_, ?_, ?_, by decide⟩
  · simp [HAL_I2C_ControllerReceive_twcr, hb]
    omega
  · intro i hi
    have hilt : i < len - 1 := by omega
    unfold HAL_I2C_ControllerReceive_twcr
    rw [hb, List.getD_append _ _ _ _ (by simpa using hilt)]
    have hrep : (List.replicate (len - 1)
        ((1 <<< TWEN) ||| (1 <<< TWINT) ||| (1 <<< TWEA))).getD i 0 =
        ((1 <<< TWEN) ||| (1 <<< TWINT) ||| (1 <<< TWEA)) := by
      simp [List.getD_eq_getElem?_getD, List.getElem?_replicate, hilt]
    rw [hrep]
    decide
  · unfold HAL_I2C_ControllerReceive_twcr
    rw [hb, List.getD_append_right _ _ _ _ (by simp)]
    simp
    decide

/-- Witness for C6 at length 3: the first data byte is acknowledged and the
third, last one is not. -/
theorem HAL_I2C_receive_ack_policy_witness :
    Nat.testBit ((HAL_I2C_ControllerReceive_twcr 3).getD 0 0) TWEA = true ∧
    Nat.testBit ((HAL_I2C_ControllerReceive_twcr 3).getD 2 0) TWEA = false :=
  ⟨(HAL_I2C_receive_ack_policy 3 (by decide) (by decide)).2.1 0 (by decide),
   (HAL_I2C_receive_ack_policy 3 (by decide) (by decide)).2.2.1⟩

/-- Claim C9: `HAL_I2C_EndComm` is idempotent on the TWCR byte, clears
exactly the TWEN bus-enable bit and leaves every other bit unchanged. -/
theorem HAL_I2C_EndComm_idempotent_frame :
    ∀ twcr < 256,
      HAL_I2C_EndComm (HAL_I2C_EndComm twcr) = HAL_I2C_EndComm twcr ∧
      Nat.testBit (HAL_I2C_EndComm twcr) TWEN = false ∧
      ∀ i < 8, i ≠ TWEN →
        Nat.testBit (HAL_I2C_EndComm twcr) i = Nat.testBit twcr i := by
  decide

/-- Witness for C9 at TWCR byte `0xFF` and bit 7. -/
theorem HAL_I2C_EndComm_idempotent_frame_witness :
    HAL_I2C_EndComm (HAL_I2C_EndComm 0xFF) = HAL_I2C_EndComm 0xFF ∧
    Nat.testBit (HAL_I2C_EndComm 0xFF) TWEN = false ∧
    Nat.testBit (HAL_I2C_EndComm 0xFF) 7 = Nat.testBit 0xFF 7 :=
  ⟨(HAL_I2C_EndComm_idempotent_frame 0xFF (by decide)).1,
   (HAL_I2C_EndComm_idempotent_frame 0xFF (by decide)).2.1,
   (HAL_I2C_EndComm_idempotent_frame 0xFF (by decide)).2.2 7 (by decide)
     (by decide)⟩

/-- Counterexample to claim C10: at length 0 the receive routines are not
memory-safe — the loop bound `len - 1` wraps in `size_t`, so index 0 (and
ultimately index `0xFFFF`) is written although no index below `len = 0`
exists. -/
theorem HAL_I2C_receive_len0_out_of_bounds :
    0 ∈ HAL_I2C_ControllerReceive_writtenIdx 0 ∧
    0 ∈ HAL_I2C_PeripheralReceive_writtenIdx 0 ∧
    65535 ∈ HAL_I2C_PeripheralReceive_writtenIdx 0 ∧
    ¬ 0 < (0 : Nat) := by
  refine ⟨?_, ?_, ?_, by omega⟩ <;>
    simp [HAL_I2C_ControllerReceive_writtenIdx,
      HAL_I2C_PeripheralReceive_writtenIdx, recv_loop_bound, sizeT_mod]

/-- Claim C10 as amended: for every length from 1 up to the `size_t` range,
`HAL_I2C_ControllerReceive` and `HAL_I2C_PeripheralReceive` store to exactly
the buffer indices 0 through length-1; at length 0 the loop bound wraps and
the routines write out of bounds. -/
theorem HAL_I2C_receive_writes_within (len : Nat) (h1 : 1 ≤ len)
    (h2 : len < sizeT_mod) :
    (∀ i, i ∈ HAL_I2C_ControllerReceive_writtenIdx len ↔ i < len) ∧
    (∀ i, i ∈ HAL_I2C_PeripheralReceive_writtenIdx len ↔ i < len) := by
  have hb : recv_loop_bound len = len - 1 := by
    unfold recv_loop_bound sizeT_mod
    unfold sizeT_mod at h2
    omega
  constructor <;>
  · intro i
    simp only [HAL_I2C_ControllerReceive_writtenIdx,
      HAL_I2C_PeripheralReceive_writtenIdx, hb, List.mem_append,
      List.mem_range, List.mem_singleton]
    omega

/-- Witness for C10 as amended, at length 2 and index 1. -/
theorem HAL_I2C_receive_writes_within_witness :
    1 ∈ HAL_I2C_ControllerReceive_writtenIdx 2 ↔ 1 < 2 :=
  (HAL_I2C_receive_writes_within 2 (by decide) (by decide)).1 1

/-- Helper for C7: whenever bit 9 of the assembled 10-bit magnitude is set,
the sign-extension step yields exactly the two's-complement value
`u - 1024`, and the magnitude is below 1024. -/
theorem DS3231_raw_signext_neg :
    ∀ m < 256, ∀ t < 4,
      Nat.testBit ((m <<< 2) ||| t) 9 = true →
      DS3231_raw_signext ((m <<< 2) ||| t) = ((m <<< 2) ||| t : Nat) - 1024 ∧
      ((m <<< 2) ||| t) < 1024 := by
  decide

/-- Claim C7: the raw register pair `0x19 0x00` decodes to exactly 25
degrees Celsius, and every raw pair whose 10-bit magnitude has bit 9 set
decodes to the negative value given by two's-complement sign extension
scaled by 0.25. -/
theorem DS3231_GetTemp_decode :
    DS3231_GetTemp 0x19 0x00 = 25 ∧
    ∀ msb lsb : Nat, msb < 256 → lsb < 256 →
      Nat.testBit ((msb <<< 2) ||| (lsb >>> 6)) 9 = true →
      DS3231_GetTemp msb lsb =
        ((((msb <<< 2) ||| (lsb >>> 6) : Nat) : ℚ) - 1024) * (1/4) ∧
      DS3231_GetTemp msb lsb < 0 := by
  constructor
  · have h100 : DS3231_GetTemp_raw 0x19 0x00 = 100 := by decide
    unfold DS3231_GetTemp
    rw [h100]
    norm_num
  · intro msb lsb hm hl hbit
    have ht : lsb >>> 6 < 4 := by
      have h64 : lsb >>> 6 = lsb / 64 := by
        simp [Nat.shiftRight_eq_div_pow]
      omega
    obtain ⟨he, hu⟩ := DS3231_raw_signext_neg msb hm (lsb >>> 6) ht hbit
    have heq : DS3231_GetTemp msb lsb =
        ((((msb <<< 2) ||| (lsb >>> 6) : Nat) : ℚ) - 1024) * (1/4) := by
      unfold DS3231_GetTemp DS3231_GetTemp_raw
      rw [he]
      push_cast
      ring
    refine ⟨heq, ?_⟩
    rw [heq]
    have hle : (((msb <<< 2) ||| (lsb >>> 6) : Nat) : ℚ) ≤ 1023 := by
      exact_mod_cast Nat.le_of_lt_succ hu
    exact mul_neg_of_neg_of_pos (by linarith) (by norm_num)

/-- Witness for C7 at the raw pair `0xF6 0x00`, whose 10-bit magnitude 984
has bit 9 set and decodes to -10 degrees Celsius. -/
theorem DS3231_GetTemp_decode_witness :
    DS3231_GetTemp 0xF6 0x00 =
      ((((0xF6 <<< 2) ||| (0x00 >>> 6) : Nat) : ℚ) - 1024) * (1/4) ∧
    DS3231_GetTemp 0xF6 0x00 < 0 :=
  DS3231_GetTemp_decode.2 0xF6 0x00 (by decide) (by decide) (by decide)

end UCMicroLab
